import Mathlib

/-!
Shallow embedding of the Predict4Life donor service
(`src/services/donorService.js`, `src/models/donorModel.js`) and proofs of
the specification claims about it.

JS strings become `String`, absent CSV cells become `none : Option String`,
JS numbers in the relevant code paths are integers and become `Int`, and the
Mongo store becomes an explicit state (`DB`) threaded through the service
operations. Dates stored in the database are epoch milliseconds (`Int`).
-/

namespace DonorSvc

/-! ## CSV rows and JS string helpers -/

/-- A raw row as `csv-parser` delivers it: each named column is a string,
a column missing from the file is `undefined` (`none`). -/
structure CsvRow where
  name : Option String
  age : Option String
  blood_group : Option String
  contact_number : Option String
  email : Option String
  address : Option String
  last_donation_date : Option String
deriving DecidableEq

/-- The whitespace characters `trim()` strips and `parseInt` skips (the
common ones; the exotic Unicode spaces do not occur in the claims). -/
def jsIsSpace (c : Char) : Bool :=
  c = ' ' || c = '\t' || c = '\n' || c = '\r'

/-- JS `trim()`: strip leading and trailing whitespace. -/
def jsTrim (s : String) : String :=
  String.mk (((s.data.dropWhile jsIsSpace).reverse.dropWhile jsIsSpace).reverse)

/-- JS `toUpperCase()` over the ASCII range. -/
def jsCharUpper (c : Char) : Char :=
  if 'a' ≤ c && c ≤ 'z' then Char.ofNat (c.toNat - 32) else c

/-- JS `toUpperCase()` of a string. -/
def jsToUpper (s : String) : String := String.mk (s.data.map jsCharUpper)

/-- JS `toLowerCase()` over the ASCII range. -/
def jsCharLower (c : Char) : Char :=
  if 'A' ≤ c && c ≤ 'Z' then Char.ofNat (c.toNat + 32) else c

/-- JS `toLowerCase()` of a string. -/
def jsToLower (s : String) : String := String.mk (s.data.map jsCharLower)

/-- JS `x?.trim() || ''`: `undefined` gives `''`; a string is trimmed
(the `|| ''` fallback on the empty trimmed string is the identity). -/
def jsTrimOrEmpty (s : Option String) : String :=
  (s.map jsTrim).getD ""

/-- JS `x?.trim().toUpperCase() || ''`. -/
def jsTrimUpperOrEmpty (s : Option String) : String :=
  (s.map (fun t => jsToUpper (jsTrim t))).getD ""

/-- JS `x?.trim().toLowerCase() || ''`. -/
def jsTrimLowerOrEmpty (s : Option String) : String :=
  (s.map (fun t => jsToLower (jsTrim t))).getD ""

/-- The value of a list of decimal digits. -/
def digitsVal (ds : List Char) : Nat :=
  ds.foldl (fun a c => a * 10 + (c.toNat - 48)) 0

/-- JS `parseInt(s)` in radix 10: skip leading whitespace, an optional sign,
then the longest run of decimal digits; no digits means `NaN` (`none`). -/
def jsParseInt (s : String) : Option Int :=
  let cs := s.data.dropWhile jsIsSpace
  let signAndRest : Int × List Char :=
    match cs with
    | '-' :: r => (-1, r)
    | '+' :: r => (1, r)
    | _ => (1, cs)
  let ds := signAndRest.2.takeWhile Char.isDigit
  if ds.isEmpty then none else some (signAndRest.1 * (digitsVal ds : Int))

/-- JS `parseInt(x) || 0`: `parseInt(undefined)` is `NaN`, and `|| 0` turns
`NaN` (and `0` itself, harmlessly) into `0`. -/
def jsParseIntOrZero (s : Option String) : Int :=
  match s with
  | none => 0
  | some t => (jsParseInt t).getD 0

/-- JS `new Date(s)`: the date constructor, modelled as the wrapping of its
source text — no verified operation inspects the parsed value. -/
structure JSDate where
  ofString ::
  raw : String
deriving DecidableEq

/-! ## The per-row transform and validation of `importDonorsFromCSV` -/

/-- A candidate donor built from a CSV row (the object literal at the top of
the `data` handler). -/
structure Donor where
  name : String
  age : Int
  blood_group : String
  contact_number : String
  email : String
  address : String
  last_donation_date : Option JSDate
deriving DecidableEq

/-- The clean-and-transform step applied to every CSV row:
`name`/`contact_number`/`address` trimmed, `blood_group` trimmed and
uppercased, `email` trimmed and lowercased, `age` through `parseInt(..) || 0`,
and `last_donation_date ? new Date(..) : null` (an empty string is falsy). -/
def transformRow (row : CsvRow) : Donor :=
  { name := jsTrimOrEmpty row.name
    age := jsParseIntOrZero row.age
    blood_group := jsTrimUpperOrEmpty row.blood_group
    contact_number := jsTrimOrEmpty row.contact_number
    email := jsTrimLowerOrEmpty row.email
    address := jsTrimOrEmpty row.address
    last_donation_date :=
      match row.last_donation_date with
      | none => none
      | some s => if s = "" then none else some (JSDate.ofString s) }

/-- A row-level parse error pushed onto `errors` by the `data` handler. -/
structure ParseErr where
  line : Nat
  data : CsvRow
  error : String
deriving DecidableEq

/-- The message recorded when a transformed row misses `name` or `email`. -/
def missingFieldsMsg : String := "Missing required fields (name or email)"

/-- The validation test of the `data` handler: `!donor.name || !donor.email`
(the only falsy string is the empty one). -/
def rowInvalid (d : Donor) : Bool :=
  d.name = "" || d.email = ""

/-- The `data` handler run over the rows in stream order, carrying the
1-based `lineNumber` counter (incremented before each row is examined):
valid rows are appended to `donors`, invalid ones to `errors`. -/
def collectRows : Nat → List CsvRow → List Donor × List ParseErr
  | _, [] => ([], [])
  | line, row :: rest =>
    let donor := transformRow row
    let (ds, es) := collectRows (line + 1) rest
    if rowInvalid donor then
      (ds, { line := line, data := row, error := missingFieldsMsg } :: es)
    else
      (donor :: ds, es)

/-- The candidate set and parse-error list after the whole stream is read.
`lineNumber` starts at 1 (the header) and is incremented at the top of the
handler, so the first data row is line 2. -/
def parseRows (rows : List CsvRow) : List Donor × List ParseErr :=
  collectRows 2 rows

/-! ## The insert loop and the import report -/

/-- What a single `Donor.create` call does, as the service observes it: it
resolves, or it rejects with an error carrying an optional numeric `code`
(Mongo uses 11000 for a unique-key violation) and a message. -/
inductive CreateOutcome where
  | ok
  | err (code : Option Int) (msg : String)
deriving DecidableEq

/-- The create call succeeded. -/
def isOk : CreateOutcome → Bool
  | .ok => true
  | .err _ _ => false

/-- The create call failed with the duplicate-key code (`error.code === 11000`). -/
def isDup : CreateOutcome → Bool
  | .ok => false
  | .err c _ => c = some 11000

/-- The create call failed with anything but the duplicate-key code. -/
def isFail (o : CreateOutcome) : Bool :=
  !isOk o && !isDup o

/-- An entry of the final `errors` array: a parse error, a failed insert
(`{data, error}`), or a duplicate (`{email, error}`). -/
inductive ErrEntry where
  | parseErr (line : Nat) (data : CsvRow) (error : String)
  | failedInsert (data : Donor) (error : String)
  | duplicate (email : String) (error : String)
deriving DecidableEq

/-- The message recorded for a duplicate insert. -/
def emailExistsMsg : String := "Email already exists"

/-- The three accumulators of the insert loop. -/
structure InsertResults where
  successful : List Donor
  duplicates : List ErrEntry
  failed : List ErrEntry
deriving DecidableEq

/-- The `for (const donorData of donors)` loop: one `Donor.create` call per
candidate, in order; the outcome of the i-th call is `outcome i`. Returns
the accumulators together with the trace of create calls issued (each call
is recorded by the donor it was given). -/
def insertDonors (outcome : Nat → CreateOutcome) : Nat → List Donor → InsertResults × List Donor
  | _, [] => (⟨[], [], []⟩, [])
  | i, d :: rest =>
    let (res, trace) := insertDonors outcome (i + 1) rest
    match outcome i with
    | .ok => ({ res with successful := d :: res.successful }, d :: trace)
    | .err code msg =>
      if code = some 11000 then
        ({ res with duplicates := .duplicate d.email emailExistsMsg :: res.duplicates }, d :: trace)
      else
        ({ res with failed := .failedInsert d msg :: res.failed }, d :: trace)

/-- The resolved value of a completed import. -/
structure ImportReport where
  total : Nat
  successful : Nat
  duplicates : Nat
  failed : Nat
  errors : List ErrEntry
deriving DecidableEq

/-- The rejections `importDonorsFromCSV` can produce. -/
inductive ImportError where
  | fileNotFound (path : String)
  | noValidRecords
  | csvReadingError (msg : String)
deriving DecidableEq

/-- How the read stream terminates: the `end` event, or an `error` event
(in which case the `end` handler — and with it all persistence — never runs). -/
inductive StreamEnd where
  | ended
  | errored (msg : String)
deriving DecidableEq

/-- `importDonorsFromCSV`: existence check, the streamed `data` handler over
the rows, then the `end` handler (reject on an empty candidate set, else the
insert loop and the report). The second component is the trace of
`Donor.create` calls the run issued. -/
def importDonorsFromCSV (filePath : String) (fileExists : Bool) (rows : List CsvRow)
    (outcome : Nat → CreateOutcome) (streamEnd : StreamEnd) :
    Except ImportError ImportReport × List Donor :=
  if !fileExists then (.error (.fileNotFound filePath), [])
  else
    match streamEnd with
    | .errored msg => (.error (.csvReadingError msg), [])
    | .ended =>
      let (donors, errors) := parseRows rows
      if donors.length = 0 then (.error .noValidRecords, [])
      else
        let (results, trace) := insertDonors outcome 0 donors
        (.ok
          { total := donors.length
            successful := results.successful.length
            duplicates := results.duplicates.length
            failed := results.failed.length
            errors :=
              errors.map (fun e => ErrEntry.parseErr e.line e.data e.error)
                ++ results.failed ++ results.duplicates },
          trace)

/-! ## The document store

The Donor collection as `donorSchema` shapes it. The schema passes no
`timestamps` option, so documents carry no `createdAt`/`updatedAt` field;
the geocoordinate fields present in only one of the two schema variants are
additive extras no verified operation reads and are not modelled. The
`unique: true` on `email` is the only index; it is case-sensitive (no
`lowercase` option is set on the field). -/

/-- A persisted document: the schema fields plus the store-assigned `_id`.
`last_donation_date` is epoch milliseconds, `none` for never donated. -/
structure DonorDoc where
  id : String
  name : String
  age : Int
  blood_group : String
  contact_number : String
  email : String
  address : String
  last_donation_date : Option Int
deriving DecidableEq

/-- The collection state: documents in insertion (natural) order, plus a
counter from which fresh `_id`s are minted. -/
structure DB where
  docs : List DonorDoc
  nextId : Nat
deriving DecidableEq

/-- A well-formed store key: a 24-character hex ObjectId string. Anything
else makes Mongoose raise a `CastError`. -/
def isValidObjectId (s : String) : Bool :=
  s.length = 24 && s.data.all (fun c => c.isDigit || ('a' ≤ c && c ≤ 'f') || ('A' ≤ c && c ≤ 'F'))

/-- A fresh 24-character hex `_id` minted from the counter. -/
def objectIdOfNat (n : Nat) : String :=
  let s := String.mk (Nat.toDigits 16 n)
  String.mk (List.replicate (24 - s.length) '0') ++ s

/-- The payload of a direct create/update call (the schema fields, no id). -/
structure DonorInput where
  name : String
  age : Int
  blood_group : String
  contact_number : String
  email : String
  address : String
  last_donation_date : Option Int
deriving DecidableEq

/-- Errors the store signals: the duplicate-key error (Mongo code 11000 on
the unique email index), a schema validation failure, and the `CastError`
raised for a malformed identifier. -/
inductive StoreErr where
  | duplicateKey (code : Int)
  | validation (msg : String)
  | castError
deriving DecidableEq

/-- The schema's `required: true` checks on a payload (a required String
path fails on the empty string as well as on an absent value). -/
def requiredOk (d : DonorInput) : Bool :=
  jsTrim d.name ≠ "" && d.blood_group ≠ "" && d.contact_number ≠ "" && d.email ≠ "" && d.address ≠ ""

/-- The document a successful create stores: the payload (name passed
through the schema trim setter) plus the fresh `_id`. -/
def createdDoc (db : DB) (d : DonorInput) : DonorDoc :=
  { id := objectIdOfNat db.nextId, name := jsTrim d.name, age := d.age
    blood_group := d.blood_group, contact_number := d.contact_number
    email := d.email, address := d.address
    last_donation_date := d.last_donation_date }

/-- `Donor.create`: validation, then the unique-index check on `email`
(exact string equality — the index has no case folding), then insertion at
the end of the collection with a fresh `_id`. -/
def dbCreate (db : DB) (d : DonorInput) : Except StoreErr (DonorDoc × DB) :=
  if !requiredOk d then .error (.validation "Donor validation failed")
  else if db.docs.any (fun doc => doc.email = d.email) then .error (.duplicateKey 11000)
  else .ok (createdDoc db d, { docs := db.docs ++ [createdDoc db d], nextId := db.nextId + 1 })

/-- `Donor.findById`: `CastError` on a malformed id, else the first document
with that `_id`, or `null`. -/
def dbFindById (db : DB) (id : String) : Except StoreErr (Option DonorDoc) :=
  if !isValidObjectId id then .error .castError
  else .ok (db.docs.find? (fun doc => doc.id = id))

/-- `Donor.findByIdAndDelete`: `CastError` on a malformed id, else remove
and return the document with that `_id` when it exists. -/
def dbFindByIdAndDelete (db : DB) (id : String) : Except StoreErr (Option DonorDoc × DB) :=
  if !isValidObjectId id then .error .castError
  else
    match db.docs.find? (fun doc => doc.id = id) with
    | none => .ok (none, db)
    | some doc => .ok (some doc, { db with docs := db.docs.eraseP (fun d => d.id = id) })

/-! ## The query service -/

/-- The typed failures of the single-record service operations. -/
inductive SvcErr where
  | emailExists
  | donorNotFound
  | invalidId
  | store (e : StoreErr)
deriving DecidableEq

/-- `createDonor`: pass the payload to `Donor.create`; an error with
`code === 11000` becomes the `Email already exists` failure, anything else
is rethrown. -/
def createDonor (db : DB) (d : DonorInput) : Except SvcErr (DonorDoc × DB) :=
  match dbCreate db d with
  | .ok r => .ok r
  | .error (.duplicateKey c) =>
    if c = 11000 then .error .emailExists else .error (.store (.duplicateKey c))
  | .error e => .error (.store e)

/-- `getDonorById`: a `CastError` becomes `Invalid donor ID format`, a
`null` result becomes `Donor not found`, else the document is returned. -/
def getDonorById (db : DB) (id : String) : Except SvcErr DonorDoc :=
  match dbFindById db id with
  | .error .castError => .error .invalidId
  | .error e => .error (.store e)
  | .ok none => .error .donorNotFound
  | .ok (some doc) => .ok doc

/-- `deleteDonor`: same error mapping as `getDonorById`; on success returns
the deleted document and the updated collection. -/
def deleteDonor (db : DB) (id : String) : Except SvcErr (DonorDoc × DB) :=
  match dbFindByIdAndDelete db id with
  | .error .castError => .error .invalidId
  | .error e => .error (.store e)
  | .ok (none, _) => .error .donorNotFound
  | .ok (some doc, db') => .ok (doc, db')

/-- The optional query filters of `getAllDonors` (HTTP query strings). -/
structure ListFilters where
  blood_group : Option String
  isEligible : Option String
deriving DecidableEq

/-- Milliseconds in a day. -/
def msPerDay : Int := 86400000

/-- The `ninetyDaysAgo` cutoff: the current moment minus 90 days (the
source's `setDate(getDate() - 90)`, in a fixed-length-day model). -/
def eligibleCutoff (now : Int) : Int := now - 90 * msPerDay

/-- The Mongo filter object `getAllDonors` builds: an optional exact
`blood_group` (the filter value uppercased; an empty string is falsy and
sets no condition), and — iff `isEligible === 'true'` — the
`$or: [{last_donation_date: null}, {last_donation_date: {$lte: cutoff}}]`
clause, recorded by its cutoff. -/
structure DonorQuery where
  blood_group : Option String
  eligibleBefore : Option Int
deriving DecidableEq

/-- Building the query object from the filters. -/
def buildQuery (filters : ListFilters) (now : Int) : DonorQuery :=
  { blood_group :=
      match filters.blood_group with
      | none => none
      | some bg => if bg = "" then none else some (jsToUpper bg)
    eligibleBefore :=
      if filters.isEligible = some "true" then some (eligibleCutoff now) else none }

/-- Whether a document matches the query: conjunction of the equality
condition and the `$or` eligibility clause (`null` matches the absent
date). -/
def matchesQuery (q : DonorQuery) (doc : DonorDoc) : Bool :=
  (match q.blood_group with
   | none => true
   | some bg => doc.blood_group = bg) &&
  (match q.eligibleBefore with
   | none => true
   | some cutoff =>
     match doc.last_donation_date with
     | none => true
     | some t => t ≤ cutoff)

/-- The `createdAt` sort key read off a document: the schema passes no
`timestamps` option, so no document has the field — the lookup is `none`
for every document. -/
def createdAtOf (_doc : DonorDoc) : Option Int := none

/-- The comparison `.sort({ createdAt: -1 })` applies: descending on the
key, an absent key reading as null (all nulls tie). -/
def createdAtDescLE (a b : DonorDoc) : Bool :=
  match createdAtOf a, createdAtOf b with
  | none, none => true
  | none, some _ => false
  | some _, none => true
  | some x, some y => y ≤ x

instance : DecidableRel (fun a b => createdAtDescLE a b = true) :=
  fun _ _ => instDecidableEqBool _ _

/-- The stable sort the store applies for `.sort({ createdAt: -1 })`. -/
def sortByCreatedAtDesc (l : List DonorDoc) : List DonorDoc :=
  List.insertionSort (fun a b => createdAtDescLE a b = true) l

/-- `getAllDonors`: build the query from the filters, run `find`, sort by
`createdAt` descending. (`select('-__v')` only drops the version key and is
not modelled.) -/
def getAllDonors (filters : ListFilters) (now : Int) (db : DB) : List DonorDoc :=
  sortByCreatedAtDesc (db.docs.filter (matchesQuery (buildQuery filters now)))

/-! ## Statistics -/

/-- One group of the `$group`/`$sort` aggregation: the blood-group label
(`_id`), the `$sum: 1` count and the `$avg: '$age'` average (exact rational
in the model). -/
structure BloodGroupStat where
  label : String
  count : Nat
  avgAge : Rat
deriving DecidableEq

/-- The documents of one blood group. -/
def groupFor (docs : List DonorDoc) (g : String) : List DonorDoc :=
  docs.filter (fun d => d.blood_group = g)

/-- Lexicographic order on character codes, string tails compared last: the
binary string comparison Mongo applies in `$sort` (over the ASCII range). -/
def strLEAux : List Char → List Char → Bool
  | [], _ => true
  | _ :: _, [] => false
  | a :: as, b :: bs =>
    if a.toNat < b.toNat then true
    else if b.toNat < a.toNat then false
    else strLEAux as bs

/-- The string order used for `$sort: { _id: 1 }`. -/
def strLE (a b : String) : Bool := strLEAux a.data b.data

/-- The distinct blood-group labels (the `$group` keys), sorted ascending
(`$sort: { _id: 1 }`). -/
def groupLabels (docs : List DonorDoc) : List String :=
  List.insertionSort (fun a b => strLE a b = true) ((docs.map (fun d => d.blood_group)).dedup)

/-- Sum of the ages of a list of documents. -/
def sumAges (docs : List DonorDoc) : Int :=
  (docs.map (fun d => d.age)).sum

/-- The value `getDonorStatistics` resolves with. -/
structure DonorStats where
  total : Nat
  byBloodGroup : List BloodGroupStat
deriving DecidableEq

/-- `getDonorStatistics`: the aggregation grouped by `blood_group` with
count and average age, sorted by label ascending, plus `countDocuments()`. -/
def getDonorStatistics (db : DB) : DonorStats :=
  { total := db.docs.length
    byBloodGroup :=
      (groupLabels db.docs).map fun g =>
        let grp := groupFor db.docs g
        { label := g, count := grp.length, avgAge := (sumAges grp : Rat) / (grp.length : Rat) } }

/-! ## Supporting lemmas about the ingestion pipeline -/

/-- The elements of a list paired with their positions, counting from `i`. -/
def indexedFrom (i : Nat) : List α → List (Nat × α)
  | [] => []
  | a :: as => (i, a) :: indexedFrom (i + 1) as

/-- The entry the insert loop appends to `failed` for a given outcome:
nothing on success or on the duplicate-key code, else `{data, error}`. -/
def failEntry (o : CreateOutcome) (d : Donor) : Option ErrEntry :=
  match o with
  | .ok => none
  | .err c m => if c = some 11000 then none else some (.failedInsert d m)

theorem length_filterMap_eq_countP (f : α → Option β) (p : α → Bool)
    (hfp : ∀ a, (f a).isSome = p a) :
    ∀ l : List α, (l.filterMap f).length = l.countP p
  | [] => rfl
  | a :: l => by
    have ih := length_filterMap_eq_countP f p hfp l
    have ha := hfp a
    rw [List.filterMap_cons, List.countP_cons]
    rcases hfa : f a with _ | b <;> rw [hfa] at ha <;> simp [← ha, ih]

theorem countP_three_partition (p q r : α → Bool)
    (hone : ∀ a, ((p a).toNat + (q a).toNat) + (r a).toNat = 1) :
    ∀ l : List α, (l.countP p + l.countP q) + l.countP r = l.length
  | [] => rfl
  | a :: l => by
    have ih := countP_three_partition p q r hone l
    have ha := hone a
    rw [List.countP_cons, List.countP_cons, List.countP_cons, List.length_cons]
    by_cases hp : p a <;> by_cases hq : q a <;> by_cases hr : r a <;>
      simp [hp, hq, hr] at ha ⊢ <;> omega

/-- Every create outcome is classified exactly one way. -/
theorem outcome_classified (o : CreateOutcome) :
    ((isOk o).toNat + (isDup o).toNat) + (isFail o).toNat = 1 := by
  rcases o with _ | ⟨c, m⟩
  · rfl
  · by_cases hc : c = some 11000 <;> simp [isOk, isDup, isFail, hc]

/-- The insert loop, resolved: each accumulator is a `filterMap` over the
position-indexed candidates, and the trace of create calls is exactly the
candidate list in order. -/
theorem insertDonors_eq (outcome : Nat → CreateOutcome) :
    ∀ (ds : List Donor) (i : Nat),
      insertDonors outcome i ds =
        ({ successful :=
             (indexedFrom i ds).filterMap fun q => if isOk (outcome q.1) then some q.2 else none
           duplicates :=
             (indexedFrom i ds).filterMap fun q =>
               if isDup (outcome q.1) then some (.duplicate q.2.email emailExistsMsg) else none
           failed := (indexedFrom i ds).filterMap fun q => failEntry (outcome q.1) q.2 },
         ds)
  | [], _ => rfl
  | d :: ds, i => by
    have ih := insertDonors_eq outcome ds (i + 1)
    rcases h : outcome i with _ | ⟨c, m⟩
    · simp [insertDonors, ih, h, indexedFrom, List.filterMap_cons, isOk, isDup, failEntry]
    · by_cases hc : c = some 11000 <;>
        simp [insertDonors, ih, h, hc, indexedFrom, List.filterMap_cons, isOk, isDup, failEntry]

/-- The streamed `data` handler, resolved: candidates and parse errors are
`filterMap`s over the rows paired with their line numbers. -/
theorem collectRows_eq :
    ∀ (rows : List CsvRow) (n : Nat),
      collectRows n rows =
        ((indexedFrom n rows).filterMap fun q =>
           if rowInvalid (transformRow q.2) then none else some (transformRow q.2),
         (indexedFrom n rows).filterMap fun q =>
           if rowInvalid (transformRow q.2) then
             some { line := q.1, data := q.2, error := missingFieldsMsg }
           else none)
  | [], _ => rfl
  | row :: rest, n => by
    have ih := collectRows_eq rest (n + 1)
    by_cases hr : rowInvalid (transformRow row) <;>
      simp [collectRows, ih, indexedFrom, List.filterMap_cons, hr]

theorem indexedFrom_length : ∀ (l : List α) (n : Nat), (indexedFrom n l).length = l.length
  | [], _ => rfl
  | a :: as, n => by simp [indexedFrom, indexedFrom_length as (n + 1)]

/-- A position-value pair of a list is in its indexed enumeration. -/
theorem mem_indexedFrom :
    ∀ (l : List α) (n i : Nat) (h : i < l.length), (n + i, l.get ⟨i, h⟩) ∈ indexedFrom n l
  | a :: as, n, 0, _ => by simp [indexedFrom]
  | a :: as, n, i + 1, h => by
    have hi : i < as.length := by
      simp only [List.length_cons] at h
      omega
    have ih := mem_indexedFrom as (n + 1) i hi
    have harith : n + (i + 1) = (n + 1) + i := by omega
    simp only [indexedFrom, List.mem_cons]
    right
    rw [harith]
    exact ih

/-- A row whose transform misses `name` or `email` gets its parse error
recorded, at the line number the counter holds when the row arrives. -/
theorem collectRows_mem_errors (rows : List CsvRow) (n i : Nat) (h : i < rows.length)
    (hbad : rowInvalid (transformRow (rows.get ⟨i, h⟩)) = true) :
    ({ line := n + i, data := rows.get ⟨i, h⟩, error := missingFieldsMsg } : ParseErr)
      ∈ (collectRows n rows).2 := by
  rw [collectRows_eq]
  simp only [List.get_eq_getElem] at hbad
  exact List.mem_filterMap.mpr ⟨(n + i, rows.get ⟨i, h⟩), mem_indexedFrom rows n i h, by
    simp [hbad]⟩

/-- A row whose transform passes validation lands in the candidate set. -/
theorem collectRows_mem_candidates (rows : List CsvRow) (n i : Nat) (h : i < rows.length)
    (hok : rowInvalid (transformRow (rows.get ⟨i, h⟩)) = false) :
    transformRow (rows.get ⟨i, h⟩) ∈ (collectRows n rows).1 := by
  rw [collectRows_eq]
  simp only [List.get_eq_getElem] at hok
  exact List.mem_filterMap.mpr ⟨(n + i, rows.get ⟨i, h⟩), mem_indexedFrom rows n i h, by
    simp [hok]⟩

/-- Every candidate passed validation: its `name` and `email` are non-empty. -/
theorem collectRows_valid (rows : List CsvRow) (n : Nat) (d : Donor)
    (hd : d ∈ (collectRows n rows).1) : d.name ≠ "" ∧ d.email ≠ "" := by
  rw [collectRows_eq] at hd
  rcases List.mem_filterMap.mp hd with ⟨q, _, hq⟩
  by_cases hr : rowInvalid (transformRow q.2)
  · simp [hr] at hq
  · simp [hr] at hq
    subst hq
    simp only [rowInvalid, Bool.or_eq_true, decide_eq_true_eq] at hr
    push_neg at hr
    exact hr

/-- The trace of create calls a run issues is empty unless the stream ended
normally (all persistence happens inside the `end` handler). -/
theorem trace_empty_unless_ended (path : String) (fileExists : Bool) (rows : List CsvRow)
    (outcome : Nat → CreateOutcome) (se : StreamEnd) :
    (importDonorsFromCSV path fileExists rows outcome se).2 = []
      ∨ ((importDonorsFromCSV path fileExists rows outcome se).2 = (parseRows rows).1
          ∧ fileExists = true ∧ se = .ended) := by
  rcases fileExists with _ | _
  · left; rfl
  · rcases se with _ | msg
    · by_cases h : (parseRows rows).1.length = 0
      · left
        simp [importDonorsFromCSV, h]
      · right
        refine ⟨?_, rfl, rfl⟩
        simp only [importDonorsFromCSV, Bool.not_true, Bool.false_eq_true, if_false, h]
        rw [(by rfl : parseRows rows = ((parseRows rows).1, (parseRows rows).2))]
        simp [h, insertDonors_eq]
    · left; rfl

/-- A failed-insert entry is produced exactly for the non-duplicate errors. -/
theorem failEntry_isSome (o : CreateOutcome) (d : Donor) : (failEntry o d).isSome = isFail o := by
  rcases o with _ | ⟨c, m⟩
  · rfl
  · by_cases hc : c = some 11000 <;> simp [failEntry, isFail, isOk, isDup, hc]

/-! ## Claim theorems -/

/-- C1: on a non-empty candidate set, `importDonorsFromCSV` issues exactly
one create call per candidate, in row order (the trace is the candidate
list); it never rejects, resolving with the report whose `total` is the
number of candidates, whose `successful`/`duplicates`/`failed` count the
positions whose create outcome succeeded / failed with the unique-key code
11000 (recording the row's email and the fixed message) / failed otherwise
(recording the row data and the error message), and whose `errors` list is
the parse errors, then the failed entries, then the duplicate entries.
The three classes are mutually exclusive and exhaustive: the counts sum to
`total`. -/
theorem importCSV_nonempty_report (path : String) (rows : List CsvRow)
    (outcome : Nat → CreateOutcome) (h : (parseRows rows).1 ≠ []) :
    importDonorsFromCSV path true rows outcome .ended =
      (.ok
        { total := (parseRows rows).1.length
          successful :=
            (indexedFrom 0 (parseRows rows).1).countP fun q => isOk (outcome q.1)
          duplicates :=
            (indexedFrom 0 (parseRows rows).1).countP fun q => isDup (outcome q.1)
          failed :=
            (indexedFrom 0 (parseRows rows).1).countP fun q => isFail (outcome q.1)
          errors :=
            (parseRows rows).2.map (fun e => ErrEntry.parseErr e.line e.data e.error)
              ++ ((indexedFrom 0 (parseRows rows).1).filterMap fun q =>
                    failEntry (outcome q.1) q.2)
              ++ ((indexedFrom 0 (parseRows rows).1).filterMap fun q =>
                    if isDup (outcome q.1) then
                      some (.duplicate q.2.email emailExistsMsg)
                    else none) },
       (parseRows rows).1)
      ∧ (((indexedFrom 0 (parseRows rows).1).countP fun q => isOk (outcome q.1))
            + ((indexedFrom 0 (parseRows rows).1).countP fun q => isDup (outcome q.1)))
          + ((indexedFrom 0 (parseRows rows).1).countP fun q => isFail (outcome q.1))
        = (parseRows rows).1.length := by
  have hlen : ¬((parseRows rows).1.length = 0) := by
    simpa [List.length_eq_zero] using h
  have hunfold : importDonorsFromCSV path true rows outcome .ended
      = (if (parseRows rows).1.length = 0 then
           ((.error .noValidRecords : Except ImportError ImportReport), ([] : List Donor))
         else
           (.ok
             { total := (parseRows rows).1.length
               successful := (insertDonors outcome 0 (parseRows rows).1).1.successful.length
               duplicates := (insertDonors outcome 0 (parseRows rows).1).1.duplicates.length
               failed := (insertDonors outcome 0 (parseRows rows).1).1.failed.length
               errors :=
                 (parseRows rows).2.map (fun e => ErrEntry.parseErr e.line e.data e.error)
                   ++ (insertDonors outcome 0 (parseRows rows).1).1.failed
                   ++ (insertDonors outcome 0 (parseRows rows).1).1.duplicates },
            (insertDonors outcome 0 (parseRows rows).1).2)) := rfl
  constructor
  · rw [hunfold, if_neg hlen, insertDonors_eq]
    have h1 := length_filterMap_eq_countP
      (fun (q : Nat × Donor) => if isOk (outcome q.1) then some q.2 else none)
      (fun (q : Nat × Donor) => isOk (outcome q.1))
      (fun q => by by_cases hq : isOk (outcome q.1) <;> simp [hq])
      (indexedFrom 0 (parseRows rows).1)
    have h2 := length_filterMap_eq_countP
      (fun (q : Nat × Donor) =>
        if isDup (outcome q.1) then some (ErrEntry.duplicate q.2.email emailExistsMsg) else none)
      (fun (q : Nat × Donor) => isDup (outcome q.1))
      (fun q => by by_cases hq : isDup (outcome q.1) <;> simp [hq])
      (indexedFrom 0 (parseRows rows).1)
    have h3 := length_filterMap_eq_countP
      (fun (q : Nat × Donor) => failEntry (outcome q.1) q.2)
      (fun (q : Nat × Donor) => isFail (outcome q.1))
      (fun q => failEntry_isSome (outcome q.1) q.2)
      (indexedFrom 0 (parseRows rows).1)
    dsimp only
    rw [h1, h2, h3]
  · calc (((indexedFrom 0 (parseRows rows).1).countP fun q => isOk (outcome q.1))
            + ((indexedFrom 0 (parseRows rows).1).countP fun q => isDup (outcome q.1)))
          + ((indexedFrom 0 (parseRows rows).1).countP fun q => isFail (outcome q.1))
        = (indexedFrom 0 (parseRows rows).1).length :=
          countP_three_partition _ _ _ (fun (q : Nat × Donor) => outcome_classified (outcome q.1)) _
      _ = (parseRows rows).1.length := indexedFrom_length (parseRows rows).1 0

/-- A valid example row. -/
def exRowOk : CsvRow :=
  { name := some " Alice ", age := some "30", blood_group := some "a+"
    contact_number := some "0711234567", email := some "ALICE@x.com"
    address := some "1 Main St", last_donation_date := some "2024-01-01" }

/-- A second valid example row. -/
def exRowOk2 : CsvRow :=
  { name := some "Bob", age := some "abc", blood_group := some "B-"
    contact_number := some "0717654321", email := some "bob@x.com"
    address := some "2 Main St", last_donation_date := none }

/-- An example row whose name trims to the empty string. -/
def exRowBad : CsvRow :=
  { name := some "  ", age := some "41", blood_group := some "O+"
    contact_number := none, email := some "carol@x.com"
    address := none, last_donation_date := some "" }

/-- The example stream: valid, invalid, valid. -/
def exRows : List CsvRow := [exRowOk, exRowBad, exRowOk2]

/-- An example outcome assignment: the first create succeeds, the second
hits the unique-key violation. -/
def exOutcome : Nat → CreateOutcome :=
  fun i => if i = 0 then .ok else .err (some 11000) "E11000 duplicate key error"

theorem importCSV_nonempty_report_witness :
    importDonorsFromCSV "donors.csv" true exRows exOutcome .ended =
      (.ok
        { total := (parseRows exRows).1.length
          successful :=
            (indexedFrom 0 (parseRows exRows).1).countP fun q => isOk (exOutcome q.1)
          duplicates :=
            (indexedFrom 0 (parseRows exRows).1).countP fun q => isDup (exOutcome q.1)
          failed :=
            (indexedFrom 0 (parseRows exRows).1).countP fun q => isFail (exOutcome q.1)
          errors :=
            (parseRows exRows).2.map (fun e => ErrEntry.parseErr e.line e.data e.error)
              ++ ((indexedFrom 0 (parseRows exRows).1).filterMap fun q =>
                    failEntry (exOutcome q.1) q.2)
              ++ ((indexedFrom 0 (parseRows exRows).1).filterMap fun q =>
                    if isDup (exOutcome q.1) then
                      some (.duplicate q.2.email emailExistsMsg)
                    else none) },
       (parseRows exRows).1)
      ∧ (((indexedFrom 0 (parseRows exRows).1).countP fun q => isOk (exOutcome q.1))
            + ((indexedFrom 0 (parseRows exRows).1).countP fun q => isDup (exOutcome q.1)))
          + ((indexedFrom 0 (parseRows exRows).1).countP fun q => isFail (exOutcome q.1))
        = (parseRows exRows).1.length :=
  importCSV_nonempty_report "donors.csv" exRows exOutcome (by decide)

/-- C2: a row whose transformed `name` or `email` is empty is recorded as a
parse error (line number, raw row, reason), is excluded from the candidate
set, and no create call is ever issued for it in any run over these rows —
a record with missing name or email is never persisted. -/
theorem invalid_row_never_persisted (rows : List CsvRow) (i : Nat) (hi : i < rows.length)
    (hbad : (transformRow (rows.get ⟨i, hi⟩)).name = ""
      ∨ (transformRow (rows.get ⟨i, hi⟩)).email = "") :
    ({ line := i + 2, data := rows.get ⟨i, hi⟩, error := missingFieldsMsg } : ParseErr)
        ∈ (parseRows rows).2
      ∧ transformRow (rows.get ⟨i, hi⟩) ∉ (parseRows rows).1
      ∧ ∀ (path : String) (fileExists : Bool) (outcome : Nat → CreateOutcome) (se : StreamEnd),
          transformRow (rows.get ⟨i, hi⟩) ∉ (importDonorsFromCSV path fileExists rows outcome se).2 := by
  have hb : rowInvalid (transformRow (rows.get ⟨i, hi⟩)) = true := by
    simp only [rowInvalid, Bool.or_eq_true, decide_eq_true_eq]
    exact hbad
  have h2 : transformRow (rows.get ⟨i, hi⟩) ∉ (parseRows rows).1 := by
    intro hmem
    have hvalid := collectRows_valid rows 2 _ hmem
    rcases hbad with h | h
    · exact hvalid.1 h
    · exact hvalid.2 h
  refine ⟨?_, h2, ?_⟩
  · have hm := collectRows_mem_errors rows 2 i hi hb
    rwa [Nat.add_comm 2 i] at hm
  · intro path fe outcome se hmem
    rcases trace_empty_unless_ended path fe rows outcome se with htr | ⟨htr, _, _⟩
    · rw [htr] at hmem
      exact absurd hmem (List.not_mem_nil _)
    · rw [htr] at hmem
      exact h2 hmem

theorem invalid_row_never_persisted_witness :
    ({ line := 1 + 2, data := exRows.get ⟨1, by decide⟩, error := missingFieldsMsg } : ParseErr)
        ∈ (parseRows exRows).2
      ∧ transformRow (exRows.get ⟨1, by decide⟩) ∉ (parseRows exRows).1
      ∧ ∀ (path : String) (fileExists : Bool) (outcome : Nat → CreateOutcome) (se : StreamEnd),
          transformRow (exRows.get ⟨1, by decide⟩)
            ∉ (importDonorsFromCSV path fileExists exRows outcome se).2 :=
  invalid_row_never_persisted exRows 1 (by decide) (Or.inl (by decide))

/-- C3: when the candidate set after the whole stream is empty — no matter
how many parse errors accumulated, and in particular when zero data rows
were read — the import rejects with the no-valid-records error and issues
no create call at all. -/
theorem empty_candidates_noValidRecords (path : String) (rows : List CsvRow)
    (outcome : Nat → CreateOutcome) (h : (parseRows rows).1 = []) :
    importDonorsFromCSV path true rows outcome .ended = (.error .noValidRecords, []) := by
  have hunfold : importDonorsFromCSV path true rows outcome .ended
      = (if (parseRows rows).1.length = 0 then
           ((.error .noValidRecords : Except ImportError ImportReport), ([] : List Donor))
         else
           (.ok
             { total := (parseRows rows).1.length
               successful := (insertDonors outcome 0 (parseRows rows).1).1.successful.length
               duplicates := (insertDonors outcome 0 (parseRows rows).1).1.duplicates.length
               failed := (insertDonors outcome 0 (parseRows rows).1).1.failed.length
               errors :=
                 (parseRows rows).2.map (fun e => ErrEntry.parseErr e.line e.data e.error)
                   ++ (insertDonors outcome 0 (parseRows rows).1).1.failed
                   ++ (insertDonors outcome 0 (parseRows rows).1).1.duplicates },
            (insertDonors outcome 0 (parseRows rows).1).2)) := rfl
  rw [hunfold, if_pos (by simp [h])]

theorem empty_candidates_noValidRecords_witness :
    importDonorsFromCSV "donors.csv" true [exRowBad] exOutcome .ended
      = (.error .noValidRecords, []) :=
  empty_candidates_noValidRecords "donors.csv" [exRowBad] exOutcome (by decide)

/-- C10: if the read stream errors mid-stream, the import rejects with the
CSV-reading error and the trace of create calls is empty; in every run, a
non-empty create trace forces a normally-ended stream — persistence happens
only inside the end-of-stream handler. -/
theorem stream_error_rejects_without_persisting (path : String) (rows : List CsvRow)
    (outcome : Nat → CreateOutcome) (msg : String) :
    importDonorsFromCSV path true rows outcome (.errored msg)
        = (.error (.csvReadingError msg), [])
      ∧ ∀ (fe : Bool) (se : StreamEnd),
          (importDonorsFromCSV path fe rows outcome se).2 ≠ [] → se = .ended := by
  refine ⟨rfl, ?_⟩
  intro fe se hne
  rcases trace_empty_unless_ended path fe rows outcome se with htr | ⟨_, _, hse⟩
  · exact absurd htr hne
  · exact hse

theorem jsTrim_empty : jsTrim "" = "" := by decide

theorem jsToUpper_empty : jsToUpper "" = "" := by decide

theorem jsToLower_empty : jsToLower "" = "" := by decide

/-- C4: the per-row transform trims `name`, `address` and `contact_number`,
trims and uppercases `blood_group`, trims and lowercases `email`; it parses
`age` as an integer, where an absent value or a parse failure (such as
`"abc"`) yields `0` and never causes the row to be rejected (any row with
non-empty transformed name and email is a candidate, whatever its `age`
cell holds); `last_donation_date` is parsed as a date when present and
non-empty, else it is null. -/
theorem transformRow_fields_spec (row : CsvRow) :
    (transformRow row).name = jsTrim (row.name.getD "")
  ∧ (transformRow row).address = jsTrim (row.address.getD "")
  ∧ (transformRow row).contact_number = jsTrim (row.contact_number.getD "")
  ∧ (transformRow row).blood_group = jsToUpper (jsTrim (row.blood_group.getD ""))
  ∧ (transformRow row).email = jsToLower (jsTrim (row.email.getD ""))
  ∧ (row.age = none → (transformRow row).age = 0)
  ∧ (∀ s, row.age = some s → jsParseInt s = none → (transformRow row).age = 0)
  ∧ (∀ s n, row.age = some s → jsParseInt s = some n → (transformRow row).age = n)
  ∧ (row.age = some "abc" → (transformRow row).age = 0)
  ∧ (∀ s, row.last_donation_date = some s → s ≠ "" →
      (transformRow row).last_donation_date = some (JSDate.ofString s))
  ∧ ((row.last_donation_date = none ∨ row.last_donation_date = some "") →
      (transformRow row).last_donation_date = none)
  ∧ (∀ (rows : List CsvRow) (i : Nat) (hi : i < rows.length),
      rows.get ⟨i, hi⟩ = row →
      (transformRow row).name ≠ "" → (transformRow row).email ≠ "" →
      transformRow row ∈ (parseRows rows).1) := by
  refine ⟨?_, ?_, ?_, ?_, ?_, ?_, ?_, ?_, ?_, ?_, ?_, ?_⟩
  · cases hx : row.name <;> simp [transformRow, jsTrimOrEmpty, jsTrim_empty, hx]
  · cases hx : row.address <;> simp [transformRow, jsTrimOrEmpty, jsTrim_empty, hx]
  · cases hx : row.contact_number <;> simp [transformRow, jsTrimOrEmpty, jsTrim_empty, hx]
  · cases hx : row.blood_group <;>
      simp [transformRow, jsTrimUpperOrEmpty, jsTrim_empty, jsToUpper_empty, hx]
  · cases hx : row.email <;>
      simp [transformRow, jsTrimLowerOrEmpty, jsTrim_empty, jsToLower_empty, hx]
  · intro hx
    simp [transformRow, jsParseIntOrZero, hx]
  · intro s hx hp
    simp [transformRow, jsParseIntOrZero, hx, hp]
  · intro s n hx hp
    simp [transformRow, jsParseIntOrZero, hx, hp]
  · intro hx
    have hp : jsParseInt "abc" = none := by decide
    simp [transformRow, jsParseIntOrZero, hx, hp]
  · intro s hx hs
    simp [transformRow, hx, hs]
  · rintro (hx | hx) <;> simp [transformRow, hx]
  · intro rows i hi hrow hname hemail
    have hok : rowInvalid (transformRow (rows.get ⟨i, hi⟩)) = false := by
      rw [hrow]
      simp [rowInvalid]
      exact ⟨hname, hemail⟩
    have hm := collectRows_mem_candidates rows 2 i hi hok
    rwa [hrow] at hm

/-- No document carries the `createdAt` sort key, so any two compare equal. -/
theorem createdAtDescLE_true (a b : DonorDoc) : createdAtDescLE a b = true := rfl

/-- With every sort key absent, the stable sort leaves the list as found. -/
theorem sortByCreatedAtDesc_eq : ∀ l : List DonorDoc, sortByCreatedAtDesc l = l
  | [] => rfl
  | a :: l => by
    have ih := sortByCreatedAtDesc_eq l
    simp only [sortByCreatedAtDesc, List.insertionSort] at ih ⊢
    rw [ih]
    cases l with
    | nil => rfl
    | cons b bs => exact List.orderedInsert_of_le _ bs (createdAtDescLE_true a b)

/-- C5: with the eligibility filter on, the list operation returns exactly
the stored records passing the (uppercased) blood-group filter whose last
donation date is null or at least 90 days before the current moment. -/
theorem getAllDonors_eligible_filter (filters : ListFilters) (now : Int) (db : DB)
    (h : filters.isEligible = some "true") :
    ∀ doc : DonorDoc,
      doc ∈ getAllDonors filters now db ↔
        doc ∈ db.docs
        ∧ (∀ bg, filters.blood_group = some bg → bg ≠ "" → doc.blood_group = jsToUpper bg)
        ∧ (doc.last_donation_date = none
            ∨ ∃ t, doc.last_donation_date = some t ∧ t + 90 * msPerDay ≤ now) := by
  intro doc
  rw [getAllDonors, sortByCreatedAtDesc_eq, List.mem_filter]
  have hmatch : matchesQuery (buildQuery filters now) doc = true ↔
      ((∀ bg, filters.blood_group = some bg → bg ≠ "" → doc.blood_group = jsToUpper bg)
        ∧ (doc.last_donation_date = none
            ∨ ∃ t, doc.last_donation_date = some t ∧ t + 90 * msPerDay ≤ now)) := by
    simp only [matchesQuery, buildQuery, h, if_pos]
    rw [Bool.and_eq_true]
    constructor
    · rintro ⟨hbg, hel⟩
      constructor
      · intro bg hfbg hne
        rw [hfbg] at hbg
        simp only [if_neg hne] at hbg
        exact of_decide_eq_true hbg
      · rcases hld : doc.last_donation_date with _ | t
        · exact Or.inl rfl
        · right
          rw [hld] at hel
          simp only at hel
          refine ⟨t, rfl, ?_⟩
          have := of_decide_eq_true hel
          rw [eligibleCutoff] at this
          omega
    · rintro ⟨hbg, hel⟩
      constructor
      · rcases hfbg : filters.blood_group with _ | bg
        · rfl
        · by_cases hne : bg = ""
          · simp [hne]
          · simp only [if_neg hne]
            exact decide_eq_true (hbg bg hfbg hne)
      · rcases hld : doc.last_donation_date with _ | t
        · rfl
        · simp only
          rcases hel with hnone | ⟨t', ht', hle⟩
          · rw [hld] at hnone
            cases hnone
          · rw [hld] at ht'
            cases ht'
            refine decide_eq_true ?_
            rw [eligibleCutoff]
            omega
  rw [hmatch]

/-- An eligible example record: never donated. -/
def docNeverDonated : DonorDoc :=
  { id := "aaaaaaaaaaaaaaaaaaaaaaaa", name := "Never", age := 30, blood_group := "A+"
    contact_number := "071", email := "never@x.com", address := "1 Main St"
    last_donation_date := none }

/-- An example record that donated 5 days ago (at `exNow`). -/
def docRecentDonor : DonorDoc :=
  { id := "bbbbbbbbbbbbbbbbbbbbbbbb", name := "Recent", age := 40, blood_group := "A+"
    contact_number := "072", email := "recent@x.com", address := "2 Main St"
    last_donation_date := some (95 * msPerDay) }

/-- An example record that donated 100 days before `exNow`. -/
def docOldDonor : DonorDoc :=
  { id := "cccccccccccccccccccccccc", name := "Old", age := 50, blood_group := "B-"
    contact_number := "073", email := "old@x.com", address := "3 Main St"
    last_donation_date := some 0 }

/-- The current moment for the eligibility example: day 100. -/
def exNow : Int := 100 * msPerDay

/-- An example store for the query examples. -/
def exQueryDB : DB :=
  { docs := [docNeverDonated, docRecentDonor, docOldDonor], nextId := 3 }

theorem getAllDonors_eligible_filter_witness :
    docRecentDonor ∈ getAllDonors { blood_group := none, isEligible := some "true" } exNow exQueryDB ↔
      docRecentDonor ∈ exQueryDB.docs
      ∧ (∀ bg, ({ blood_group := none, isEligible := some "true" } : ListFilters).blood_group = some bg
            → bg ≠ "" → docRecentDonor.blood_group = jsToUpper bg)
      ∧ (docRecentDonor.last_donation_date = none
          ∨ ∃ t, docRecentDonor.last_donation_date = some t ∧ t + 90 * msPerDay ≤ exNow) :=
  getAllDonors_eligible_filter { blood_group := none, isEligible := some "true" } exNow exQueryDB
    rfl docRecentDonor

theorem strLEAux_total : ∀ as bs : List Char, strLEAux as bs = true ∨ strLEAux bs as = true
  | [], _ => Or.inl rfl
  | _ :: _, [] => Or.inr rfl
  | a :: as, b :: bs => by
    by_cases h1 : a.toNat < b.toNat
    · left
      simp [strLEAux, h1]
    · by_cases h2 : b.toNat < a.toNat
      · right
        simp [strLEAux, h2]
      · rcases strLEAux_total as bs with h | h
        · left
          simp [strLEAux, h1, h2, h]
        · right
          simp [strLEAux, h1, h2, h]

theorem strLEAux_trans : ∀ as bs cs : List Char,
    strLEAux as bs = true → strLEAux bs cs = true → strLEAux as cs = true
  | [], _, _ => fun _ _ => rfl
  | _ :: _, [], _ => fun h _ => by simp [strLEAux] at h
  | _ :: _, _ :: _, [] => fun _ h => by simp [strLEAux] at h
  | a :: as, b :: bs, c :: cs => fun hab hbc => by
    simp only [strLEAux] at hab hbc ⊢
    by_cases h1 : a.toNat < b.toNat
    · by_cases h2 : b.toNat < c.toNat
      · simp [Nat.lt_trans h1 h2]
      · rw [if_neg h2] at hbc
        by_cases h3 : c.toNat < b.toNat
        · rw [if_pos h3] at hbc
          exact absurd hbc (by simp)
        · simp [show a.toNat < c.toNat by omega]
    · rw [if_neg h1] at hab
      by_cases h4 : b.toNat < a.toNat
      · rw [if_pos h4] at hab
        exact absurd hab (by simp)
      · rw [if_neg h4] at hab
        by_cases h2 : b.toNat < c.toNat
        · simp [show a.toNat < c.toNat by omega]
        · rw [if_neg h2] at hbc
          by_cases h3 : c.toNat < b.toNat
          · rw [if_pos h3] at hbc
            exact absurd hbc (by simp)
          · rw [if_neg h3] at hbc
            rw [if_neg (show ¬a.toNat < c.toNat by omega),
              if_neg (show ¬c.toNat < a.toNat by omega)]
            exact strLEAux_trans as bs cs hab hbc

instance : IsTotal String (fun a b => strLE a b = true) :=
  ⟨fun a b => strLEAux_total a.data b.data⟩

instance : IsTrans String (fun a b => strLE a b = true) :=
  ⟨fun a b c => strLEAux_trans a.data b.data c.data⟩

/-- A string is a sorted group label iff some record carries it. -/
theorem mem_groupLabels (docs : List DonorDoc) (g : String) :
    g ∈ groupLabels docs ↔ ∃ d ∈ docs, d.blood_group = g := by
  rw [groupLabels, List.Perm.mem_iff (List.perm_insertionSort _ _), List.mem_dedup,
    List.mem_map]

/-- C6: the statistics operation returns the grand total record count and
one entry per distinct blood group, ordered by label ascending with no
repeats; each entry counts the records of its group and carries their exact
average age (so entry average times entry count is the group's age sum).
On the claim's example store (A+ with ages 30 and 40, B- with age 50) it
returns A+ then B-, counts 2 and 1, average ages 35 and 50, and total 3. -/
theorem getDonorStatistics_spec (db : DB) :
    (getDonorStatistics db).total = db.docs.length
  ∧ List.Sorted (fun a b => strLE a b = true)
      ((getDonorStatistics db).byBloodGroup.map fun s => s.label)
  ∧ ((getDonorStatistics db).byBloodGroup.map fun s => s.label).Nodup
  ∧ (∀ g : String,
      g ∈ ((getDonorStatistics db).byBloodGroup.map fun s => s.label)
        ↔ ∃ d ∈ db.docs, d.blood_group = g)
  ∧ (∀ s ∈ (getDonorStatistics db).byBloodGroup,
      s.count = db.docs.countP (fun d => d.blood_group = s.label)
      ∧ s.count ≠ 0
      ∧ s.avgAge * (s.count : Rat)
          = (((db.docs.filter fun d => d.blood_group = s.label).map fun d => d.age).sum : Int))
  ∧ getDonorStatistics exQueryDB =
      { total := 3
        byBloodGroup := [{ label := "A+", count := 2, avgAge := 35 },
                         { label := "B-", count := 1, avgAge := 50 }] } := by
  have hmaplab : ((getDonorStatistics db).byBloodGroup.map fun s => s.label)
      = groupLabels db.docs := by
    simp [getDonorStatistics, List.map_map, Function.comp_def]
  refine ⟨rfl, ?_, ?_, ?_, ?_, ?_⟩
  · rw [hmaplab]
    exact List.sorted_insertionSort _ _
  · rw [hmaplab, groupLabels]
    exact ((List.perm_insertionSort _ _).nodup_iff).mpr (List.nodup_dedup _)
  · intro g
    rw [hmaplab]
    exact mem_groupLabels db.docs g
  · intro s hs
    rcases List.mem_map.mp hs with ⟨g, hg, hstat⟩
    have hlab : s.label = g := by rw [← hstat]
    have hcount : s.count = (groupFor db.docs g).length := by rw [← hstat]
    have havg : s.avgAge = ((sumAges (groupFor db.docs g) : Int) : Rat)
        / (((groupFor db.docs g).length : Nat) : Rat) := by rw [← hstat]
    have hne : (groupFor db.docs g).length ≠ 0 := by
      rcases (mem_groupLabels db.docs g).mp hg with ⟨d, hd, hdg⟩
      have : d ∈ groupFor db.docs g := by
        rw [groupFor, List.mem_filter]
        exact ⟨hd, by simp [hdg]⟩
      intro hzero
      rw [List.length_eq_zero] at hzero
      rw [hzero] at this
      exact absurd this (List.not_mem_nil d)
    refine ⟨?_, ?_, ?_⟩
    · rw [hcount, hlab, groupFor, List.countP_eq_length_filter]
    · rw [hcount]
      exact hne
    · rw [havg, hcount, hlab]
      rw [div_mul_cancel₀]
      · rw [sumAges, groupFor]
      · exact_mod_cast hne
  · have hl : groupLabels exQueryDB.docs = ["A+", "B-"] := by decide
    have hA : groupFor exQueryDB.docs "A+" = [docNeverDonated, docRecentDonor] := by decide
    have hB : groupFor exQueryDB.docs "B-" = [docOldDonor] := by decide
    have hsA : sumAges [docNeverDonated, docRecentDonor] = 70 := by decide
    have hsB : sumAges [docOldDonor] = 50 := by decide
    rw [getDonorStatistics, hl]
    simp only [List.map_cons, List.map_nil, hA, hB, hsA, hsB]
    norm_num
    decide

/-- C7 (evaluation at the failing input): no document carries a `createdAt`
field (the schema passes no `timestamps` option), so `.sort({createdAt: -1})`
compares every pair of documents equal and the list operation returns the
collection in insertion order — `docRecentDonor`, created after
`docNeverDonated`, is returned second, not first, refuting
newest-created-first ordering. The empty store still yields the empty
sequence without error. -/
theorem getAllDonors_no_creation_timestamp :
    createdAtOf docNeverDonated = none
  ∧ createdAtOf docRecentDonor = none
  ∧ getAllDonors { blood_group := none, isEligible := none } 0
      { docs := [docNeverDonated, docRecentDonor], nextId := 2 }
      = [docNeverDonated, docRecentDonor]
  ∧ [docNeverDonated, docRecentDonor] ≠ [docRecentDonor, docNeverDonated]
  ∧ getAllDonors { blood_group := none, isEligible := none } 0 { docs := [], nextId := 0 }
      = [] := by
  refine ⟨rfl, rfl, by decide, by decide, rfl⟩

/-- First example payload for direct creation; its email has upper-case
letters, which `createDonor` does not normalize. -/
def exD1 : DonorInput :=
  { name := "Alice", age := 30, blood_group := "A+", contact_number := "071"
    email := "Alice@X.com", address := "1 Main St", last_donation_date := none }

/-- Second example payload: the same email in lower case. -/
def exD2 : DonorInput :=
  { name := "Alice2", age := 31, blood_group := "A+", contact_number := "072"
    email := "alice@x.com", address := "2 Main St", last_donation_date := none }

/-- Two consecutive `createDonor` calls against an initially empty store. -/
def createTwice (d1 d2 : DonorInput) : Except SvcErr (DonorDoc × DB) :=
  match createDonor { docs := [], nextId := 0 } d1 with
  | .ok (_, db1) => createDonor db1 d2
  | .error e => .error e

/-- Whether a create call resolved. -/
def succeeded : Except SvcErr (DonorDoc × DB) → Bool
  | .ok _ => true
  | .error _ => false

/-- C8 (counterexample): two `createDonor` calls whose emails are equal only
case-insensitively — neither the schema (no `lowercase` option) nor
`createDonor` lower-cases the email, so the second call succeeds instead of
failing with the duplicate-email error. -/
theorem createDonor_case_insensitive_refuted :
    jsToLower exD1.email = jsToLower exD2.email
  ∧ exD1.email ≠ exD2.email
  ∧ succeeded (createTwice exD1 exD2) = true := by decide

/-- C8 (amended): for two `createDonor` calls whose emails are exactly
equal as given (the CSV pipeline lower-cases emails, but direct creation
stores them verbatim), against a store with no record of that email yet and
payloads passing schema validation: the first call succeeds and the second
fails with the duplicate-email error rather than a generic failure. -/
theorem createDonor_exact_duplicate_email (db : DB) (d1 d2 : DonorInput)
    (h1 : requiredOk d1 = true) (h2 : requiredOk d2 = true)
    (hmail : d2.email = d1.email)
    (hfresh : ∀ doc ∈ db.docs, doc.email ≠ d1.email) :
    ∃ doc1 db1, createDonor db d1 = .ok (doc1, db1)
      ∧ createDonor db1 d2 = .error .emailExists := by
  have hany : db.docs.any (fun doc => doc.email = d1.email) = false := by
    rw [List.any_eq_false]
    intro doc hdoc
    simp [hfresh doc hdoc]
  refine ⟨createdDoc db d1,
    { docs := db.docs ++ [createdDoc db d1], nextId := db.nextId + 1 }, ?_, ?_⟩
  · simp [createDonor, dbCreate, h1, hany]
  · have hany2 : (db.docs ++ [createdDoc db d1]).any
        (fun doc => doc.email = d2.email) = true := by
      rw [List.any_eq_true]
      refine ⟨createdDoc db d1, List.mem_append_right _ (List.mem_singleton_self _), ?_⟩
      simp [createdDoc, hmail]
    simp [createDonor, dbCreate, h2, hany2]

theorem createDonor_exact_duplicate_email_witness :
    ∃ doc1 db1, createDonor { docs := [], nextId := 0 } exD1 = .ok (doc1, db1)
      ∧ createDonor db1 exD1 = .error .emailExists :=
  createDonor_exact_duplicate_email { docs := [], nextId := 0 } exD1 exD1
    (by decide) (by decide) rfl
    (by intro doc hd; exact absurd hd (List.not_mem_nil doc))

/-- C9: looking a donor up (or deleting one) by identifier is a three-way
taxonomy — a malformed store key fails with the invalid-identifier error; a
well-formed key with no record fails with the not-found error, a distinct
typed failure; a well-formed key with a record returns that record (and the
delete variant removes it). -/
theorem donor_lookup_error_taxonomy (db : DB) (id : String) :
    (isValidObjectId id = false →
      getDonorById db id = .error .invalidId ∧ deleteDonor db id = .error .invalidId)
  ∧ (isValidObjectId id = true → db.docs.find? (fun d => d.id = id) = none →
      getDonorById db id = .error .donorNotFound
        ∧ deleteDonor db id = .error .donorNotFound)
  ∧ (∀ doc, isValidObjectId id = true → db.docs.find? (fun d => d.id = id) = some doc →
      getDonorById db id = .ok doc
        ∧ deleteDonor db id = .ok (doc, { db with docs := db.docs.eraseP fun d => d.id = id }))
  ∧ SvcErr.invalidId ≠ SvcErr.donorNotFound := by
  refine ⟨?_, ?_, ?_, by decide⟩
  · intro hbad
    constructor
    · simp [getDonorById, dbFindById, hbad]
    · simp [deleteDonor, dbFindByIdAndDelete, hbad]
  · intro hval hnone
    constructor
    · simp [getDonorById, dbFindById, hval, hnone]
    · simp [deleteDonor, dbFindByIdAndDelete, hval, hnone]
  · intro doc hval hsome
    constructor
    · simp [getDonorById, dbFindById, hval, hsome]
    · simp [deleteDonor, dbFindByIdAndDelete, hval, hsome]

end DonorSvc
